import Mathlib

/-
Verification development for the rss-la-nit repository (src/scraper.py and
src/generate_rss.py): a shallow embedding of the episode extraction chain,
the discovery loop, the field normalizers and the feed synthesizer, together
with theorems settling the specified properties.

External collaborators (HTTP transport, BeautifulSoup parsing, dateutil,
json, feedgen serialization) are modelled as abstract inputs: a fetched page
is a record of the pieces of markup the scraper reads, the remote API
response is a list of items with optional keys, and the permissive date
parser is a function parameter.  Python dictionary keys that may be absent
are modelled as Option; Python string truthiness (empty string is falsy) is
modelled explicitly where the source relies on it.
-/

namespace RssLaNit

/-- Characters-level test that the list `s` starts with the list `pat`
(models Python `str.startswith` and the anchoring of `re.match`). -/
def charsStartWith : List Char → List Char → Bool
  | _, [] => true
  | [], _ :: _ => false
  | a :: as, b :: bs => a == b && charsStartWith as bs

/-- Characters-level test that `s` ends with `pat` (models Python `str.endswith`). -/
def charsEndWith (s pat : List Char) : Bool :=
  charsStartWith s.reverse pat.reverse

/-- Characters-level substring containment (models the Python `in` operator on
strings): `pat` occurs contiguously somewhere in `s`. -/
def charsContain (pat : List Char) : List Char → Bool
  | [] => pat.isEmpty
  | c :: rest => charsStartWith (c :: rest) pat || charsContain pat rest

/-- String wrapper for `charsStartWith`. -/
def strStartsWith (s pat : String) : Bool := charsStartWith s.data pat.data

/-- String wrapper for `charsEndWith`. -/
def strEndsWith (s pat : String) : Bool := charsEndWith s.data pat.data

/-- String wrapper for `charsContain`: `pat` is a substring of `s`. -/
def strContains (s pat : String) : Bool := charsContain pat.data s.data

/-- Drop the first `n` characters of a string (models Python slicing `s[n:]`). -/
def strDrop (s : String) (n : Nat) : String := String.mk (s.data.drop n)

/-- Python `str.strip()`: remove leading and trailing whitespace. -/
def pyStrip (s : String) : String :=
  String.mk (((s.data.dropWhile Char.isWhitespace).reverse.dropWhile Char.isWhitespace).reverse)

/-- Split a character list at every occurrence of the separator character,
keeping empty segments (models Python `str.split(sep)` for a one-character
separator, as used with `'/'` in the scraper). -/
def splitCharsOn (sep : Char) : List Char → List Char → List (List Char)
  | [], cur => [cur.reverse]
  | x :: xs, cur => if x == sep then cur.reverse :: splitCharsOn sep xs [] else splitCharsOn sep xs (x :: cur)

/-- String wrapper for `splitCharsOn`. -/
def strSplitOn (s : String) (sep : Char) : List String :=
  (splitCharsOn sep s.data []).map String.mk

/-- JSON-LD embedded object returned by `DeNitScraper._extract_json_data`
(scraper.py lines 35-54): an object of `@type` AudioObject, Episode or
PodcastEpisode.  Key presence is modelled with `Option`: `none` means the
key is absent from the object. -/
structure EmbeddedData where
  name : Option String
  description : Option String
  uploadDate : Option String
  duration : Option String
  thumbnailUrl : Option String
  contentUrl : Option String
deriving DecidableEq, Repr

/-- One item of the remote RTVE API response `data.page.items`
(scraper.py lines 79-84); `url` and `audioUrl` are optional keys. -/
structure ApiItem where
  url : Option String
  audioUrl : Option String
deriving DecidableEq, Repr

/-- One fetched episode page, reduced to the pieces of markup the scraper
reads: the embedded JSON-LD object (if any script tag parses to a known
type), the text of the chosen `h1` tag, the `content` attribute of the
description `meta` tag, the `datetime` attribute of the `time` tag and the
`content` attribute of the `og:image` tag. -/
structure Page where
  jsonLd : Option EmbeddedData
  h1Text : Option String
  metaDescription : Option String
  timeDatetime : Option String
  ogImage : Option String
deriving DecidableEq, Repr

/-- Scan of the API items performed by `_extract_audio_url`
(scraper.py lines 79-84): the first item carrying a `url` key wins, an
`audioUrl` key on the same item is tried next, otherwise the scan moves on. -/
def apiScan : List ApiItem → Option String
  | [] => none
  | item :: rest =>
    match item.url with
    | some u => some u
    | none =>
      match item.audioUrl with
      | some u => some u
      | none => apiScan rest

/-- Result of the secondary API fetch: `none` models a failed fetch, a
non-200 status or a response without `page.items`; `some items` models a
successful response. -/
def apiAudio : Option (List ApiItem) → Option String
  | some items => apiScan items
  | none => none

/-- `DeNitScraper._extract_audio_url` (scraper.py lines 56-88): the embedded
JSON object's `contentUrl` wins when present; otherwise the remote API
response is scanned. -/
def extract_audio_url (p : Page) (api : Option (List ApiItem)) : Option String :=
  match p.jsonLd with
  | some j =>
    match j.contentUrl with
    | some u => some u
    | none => apiAudio api
  | none => apiAudio api

/-- Title resolution of `get_episode_details` (scraper.py lines 115-121):
the embedded object's `name` when that key is present, otherwise the
stripped text of the `h1` tag. -/
def resolveTitle (p : Page) : Option String :=
  match p.jsonLd with
  | some j =>
    match j.name with
    | some n => some n
    | none => p.h1Text.map pyStrip
  | none => p.h1Text.map pyStrip

/-- Description resolution (scraper.py lines 123-130): embedded `description`
key first, otherwise the stripped `content` attribute of the description
`meta` tag. -/
def resolveDescription (p : Page) : Option String :=
  match p.jsonLd with
  | some j =>
    match j.description with
    | some d => some d
    | none => p.metaDescription.map pyStrip
  | none => p.metaDescription.map pyStrip

/-- Publication-date resolution (scraper.py lines 132-139): embedded
`uploadDate` key first, otherwise the `datetime` attribute of the `time` tag. -/
def resolvePubDate (p : Page) : Option String :=
  match p.jsonLd with
  | some j =>
    match j.uploadDate with
    | some d => some d
    | none => p.timeDatetime
  | none => p.timeDatetime

/-- Duration resolution (scraper.py lines 141-144): only the embedded
`duration` key is consulted; there is no markup fallback. -/
def resolveDuration (p : Page) : Option String :=
  match p.jsonLd with
  | some j => j.duration
  | none => none

/-- Image resolution (scraper.py lines 146-153): embedded `thumbnailUrl` key
first, otherwise the `content` attribute of the `og:image` meta tag. -/
def resolveImage (p : Page) : Option String :=
  match p.jsonLd with
  | some j =>
    match j.thumbnailUrl with
    | some i => some i
    | none => p.ogImage
  | none => p.ogImage

/-- Episode id derivation (scraper.py line 110):
`episode_url.rstrip('/').split('/')[-1]`. -/
def episodeIdOf (url : String) : String :=
  let trimmed := String.mk ((url.data.reverse.dropWhile (fun c => c = '/')).reverse)
  ((strSplitOn trimmed '/').getLast?).getD ""

/-- The episode record built by `get_episode_details` (scraper.py lines
162-171); `description` is coerced to the empty string, the remaining
optional fields are stored as extracted. -/
structure ScrapedEpisode where
  id : String
  url : String
  title : String
  description : String
  pub_date : Option String
  duration : Option String
  image_url : Option String
  audio_url : Option String
deriving DecidableEq, Repr

/-- `DeNitScraper.get_episode_details` (scraper.py lines 90-177) restricted
to its pure logic: the fetched page and the API response are inputs.  The
guard `if not title` drops the episode when the resolved title is `None`
or the empty string (Python falsiness). -/
def get_episode_details (p : Page) (api : Option (List ApiItem)) (episode_url : String) :
    Option ScrapedEpisode :=
  let episode_id := episodeIdOf episode_url
  match resolveTitle p with
  | none => none
  | some t =>
    if t = "" then none
    else
      some {
        id := episode_id
        url := episode_url
        title := t
        description := (resolveDescription p).getD ""
        pub_date := resolvePubDate p
        duration := resolveDuration p
        image_url := resolveImage p
        audio_url := extract_audio_url p api
      }

/-- `DeNitScraper.BASE_URL` (scraper.py line 19). -/
def BASE_URL : String := "https://www.rtve.es"

/-- `DeNitScraper.PROGRAM_URL` (scraper.py line 20), the listing page. -/
def PROGRAM_URL : String := "https://www.rtve.es/play/audios/de-nit/"

/-- Model of `urllib.parse.urljoin(BASE_URL, href)` for the href shapes that
occur here: an absolute URL is kept, a protocol-relative URL receives the
base scheme, a root-relative path is appended to the base authority, and any
other relative path is resolved against the base (whose path is empty). -/
def urljoin (base href : String) : String :=
  if strStartsWith href ("http://") || strStartsWith href ("https://") then href
  else if strStartsWith href ("//") then "https:" ++ href
  else if strStartsWith href ("/") then base ++ href
  else base ++ "/" ++ href

/-- One iteration of the link-collection loop in `get_episodes_list`
(scraper.py lines 202-207): keep hrefs containing the program path but not
equal (as raw text) to the listing URL, join against the base, and append
when not already collected. -/
def episodeLinkStep (acc : List String) (href : String) : List String :=
  if strContains href ("/play/audios/de-nit/") && href != PROGRAM_URL then
    let full := urljoin BASE_URL href
    if full ∈ acc then acc else acc ++ [full]
  else acc

/-- The collected episode links for a listing page given as its list of
hyperlink targets (scraper.py lines 199-207). -/
def episodeLinks (hrefs : List String) : List String :=
  hrefs.foldl episodeLinkStep []

/-- The discovery result: collected links truncated to the configured
maximum (scraper.py line 210). -/
def get_episodes_list_urls (hrefs : List String) (max_episodes : Nat) : List String :=
  (episodeLinks hrefs).take max_episodes

/-- Numeric value of a decimal digit character. -/
def digitVal (c : Char) : Nat := c.toNat - 48

/-- Value of a nonempty decimal digit string (models Python `int`). -/
def digitsToNat (ds : List Char) : Nat :=
  ds.foldl (fun a c => a * 10 + digitVal c) 0

/-- One optional regex group `(?:(\d+)X)?` of the duration pattern: read a
maximal digit run; when it is nonempty and the designator letter follows,
consume both and return the value, otherwise match nothing and keep the
input position.  Backtracking inside the digit run can never help because
the run must be followed by a non-digit literal, so this is faithful to
`re.match`. -/
def parseComponent (cs : List Char) (letter : Char) : Option Nat × List Char :=
  let ds := cs.takeWhile Char.isDigit
  let rest := cs.dropWhile Char.isDigit
  if ds.isEmpty then (none, cs)
  else
    match rest with
    | c :: rest2 => if c == letter then (some (digitsToNat ds), rest2) else (none, cs)
    | [] => (none, cs)

/-- Decimal digit characters of `n`, most significant first; the fuel
argument makes the recursion structural and is always sufficient at
`n + 1`. -/
def natToDigitsAux : Nat → Nat → List Char
  | 0, _ => []
  | fuel + 1, n =>
    if n < 10 then [Nat.digitChar n]
    else natToDigitsAux fuel (n / 10) ++ [Nat.digitChar (n % 10)]

/-- Decimal representation of a natural number. -/
def natToDecimal (n : Nat) : String := String.mk (natToDigitsAux (n + 1) n)

/-- Python `f"{n:02d}"`: the decimal representation zero-padded on the left
to at least two characters. -/
def fmt2 (n : Nat) : String := if n < 10 then "0" ++ natToDecimal n else natToDecimal n

/-- The `HH:MM:SS` assembly of `_parse_duration` (generate_rss.py line 74). -/
def fmtHMS (h m s : Nat) : String := fmt2 h ++ ":" ++ fmt2 m ++ ":" ++ fmt2 s

/-- The match of `re.match(r'PT(?:(\d+)H)?(?:(\d+)M)?(?:(\d+)S)?', s)`
(generate_rss.py lines 67-73): `none` when the string does not start with
the literal `PT` (the regex is anchored), otherwise the three captured
component values with absent groups defaulted to zero by `int(... or 0)`. -/
def durationComponents (s : String) : Option (Nat × Nat × Nat) :=
  if strStartsWith s ("PT") then
    let cs := (strDrop s 2).data
    let hPart := parseComponent cs 'H'
    let mPart := parseComponent hPart.2 'M'
    let sPart := parseComponent mPart.2 'S'
    some (hPart.1.getD 0, mPart.1.getD 0, sPart.1.getD 0)
  else none

/-- `RSSGenerator._parse_duration` (generate_rss.py lines 53-76). -/
def parse_duration (s : String) : String :=
  if s = "" then "00:00:00"
  else
    match durationComponents s with
    | some (h, m, sec) => fmtHMS h m sec
    | none => "00:00:00"

/-- A Python `datetime`: an abstract wall-clock payload plus an optional
timezone (`none` models a naive datetime, `some 0` models `timezone.utc`). -/
structure PyDateTime where
  wall : Nat
  tzOffset : Option Int
deriving DecidableEq, Repr

/-- The timezone attached by `timezone.utc`. -/
def utcTz : Option Int := some 0

/-- `RSSGenerator._parse_date` (generate_rss.py lines 78-98).  The ambient
clock `datetime.now(timezone.utc)` is the parameter `nowWall`; the external
permissive parser `dateutil.parser.parse` is the parameter `dparse`, with
`none` modelling a raised exception.  `dt.replace(tzinfo=timezone.utc)`
keeps the wall-clock fields and attaches UTC. -/
def parse_date (nowWall : Nat) (dparse : String → Option PyDateTime) (s : String) : PyDateTime :=
  if s = "" then { wall := nowWall, tzOffset := utcTz }
  else
    match dparse s with
    | none => { wall := nowWall, tzOffset := utcTz }
    | some dt => if dt.tzOffset = none then { dt with tzOffset := utcTz } else dt

/-- One record of the intermediate episodes.json array as consumed by the
generator (`episode_data` dictionaries): every key may be absent, which is
modelled with `Option`. -/
structure EpisodeData where
  id : Option String
  url : Option String
  title : Option String
  description : Option String
  pub_date : Option String
  duration : Option String
  image_url : Option String
  audio_url : Option String
deriving DecidableEq, Repr

/-- An RSS enclosure element as emitted by `fe.enclosure` (generate_rss.py
line 140). -/
structure Enclosure where
  url : String
  mimeType : String
  length : String
deriving DecidableEq, Repr

/-- One feed entry as assembled by `add_episode`: the fields set on the
feedgen entry object. -/
structure FeedEntry where
  title : String
  description : String
  link : Option String
  guid : String
  pubDate : PyDateTime
  enclosure : Option Enclosure
  itunesDuration : Option String
  itunesImage : Option String
  author : String
deriving DecidableEq, Repr

/-- MIME inference of `add_episode` (generate_rss.py lines 134-138):
default `audio/mpeg`, overridden by the `.m4a` and `.ogg` suffix checks. -/
def mimeTypeFor (audio_url : String) : String :=
  if strEndsWith audio_url (".m4a") then "audio/mp4"
  else if strEndsWith audio_url (".ogg") then "audio/ogg"
  else "audio/mpeg"

/-- `RSSGenerator.add_episode` (generate_rss.py lines 100-154).  Python
truthiness appears as explicit emptiness tests: the link, guid, enclosure,
duration and image branches test the string for emptiness exactly where the
source tests truthiness. -/
def add_episode (nowWall : Nat) (dparse : String → Option PyDateTime) (d : EpisodeData) :
    FeedEntry :=
  let episode_url := d.url.getD ""
  let episode_id := d.id.getD ""
  { title := d.title.getD "Sin título"
    description := d.description.getD ""
    link := if episode_url = "" then none else some episode_url
    guid := if episode_url = "" then "de-nit-" ++ episode_id else episode_url
    pubDate := parse_date nowWall dparse (d.pub_date.getD "")
    enclosure :=
      match d.audio_url with
      | some u =>
        if u = "" then none
        else some { url := u, mimeType := mimeTypeFor u, length := "0" }
      | none => none
    itunesDuration :=
      match d.duration.getD "" with
      | "" => none
      | dur => some (parse_duration dur)
    itunesImage :=
      match d.image_url with
      | some u => if u = "" then none else some u
      | none => none
    author := "RTVE" }

/-- `RSSGenerator.add_episodes` (generate_rss.py lines 156-164): the loop
adding one entry per record to the feed entry list.  Each iteration's
`fe = self.fg.add_entry()` uses feedgen's default insertion order, which
places the new entry at the FRONT of the generator's entry list, and
`rss_file` serializes that list in order — so the loop is a fold that
prepends. -/
def add_episodes (nowWall : Nat) (dparse : String → Option PyDateTime)
    (entries : List FeedEntry) (episodes : List EpisodeData) : List FeedEntry :=
  episodes.foldl (fun acc e => add_episode nowWall dparse e :: acc) entries

/-- The diagnostic printed by `main` on `FileNotFoundError`
(generate_rss.py line 194). -/
def fileNotFoundMsg (path : String) : String :=
  "Error: No se encontró el archivo " ++ path ++
    ". Ejecuta primero el scraper para generar los datos de episodios."

/-- The diagnostic printed by `main` on `json.JSONDecodeError`
(generate_rss.py line 197). -/
def invalidJsonMsg (path : String) : String :=
  "Error: El archivo " ++ path ++
    " no contiene JSON válido. Verifica que el archivo fue generado correctamente por el scraper."

/-- Outcome of one run of the generator `main` (generate_rss.py lines
177-208): an abort with one of the two diagnostics and no output written,
or a generated feed. -/
inductive SynthesisOutcome where
  | fileNotFound (msg : String)
  | invalidContent (msg : String)
  | generated (feed : List FeedEntry)
deriving DecidableEq, Repr

/-- `main` of generate_rss.py restricted to its decision logic: the input
file content is `none` when the file is missing (FileNotFoundError), and
the external `json.load` is the parameter `jsonLoad`, with `none` modelling
`json.JSONDecodeError`.  Output is written only in the `generated` case. -/
def run_generator_main (path : String) (file : Option String)
    (jsonLoad : String → Option (List EpisodeData))
    (nowWall : Nat) (dparse : String → Option PyDateTime) : SynthesisOutcome :=
  match file with
  | none => .fileNotFound (fileNotFoundMsg path)
  | some content =>
    match jsonLoad content with
    | none => .invalidContent (invalidJsonMsg path)
    | some episodes => .generated (add_episodes nowWall dparse [] episodes)

/-- Reading of the specification phrase "the title can be resolved from some
source": the embedded object carries a nonempty name, or the page h1 strips
to a nonempty heading.  Stated from the specification wording, for
comparison with the code's behaviour. -/
def titleResolvableFromSomeSource (p : Page) : Prop :=
  (∃ t, p.jsonLd.bind EmbeddedData.name = some t ∧ t ≠ "") ∨
  (∃ t, p.h1Text.map pyStrip = some t ∧ t ≠ "")

/-- The step function of the discovery loop viewed as a per-href filter and
map: the matched, joined URL stream whose first occurrences the loop keeps. -/
def linkFilterMapFn (href : String) : Option String :=
  if strContains href ("/play/audios/de-nit/") && href != PROGRAM_URL then
    some (urljoin BASE_URL href)
  else none

/-- A page whose embedded object carries the empty string as its `name` while
the page h1 carries a real heading. -/
def cexPageC2 : Page :=
  ⟨some ⟨some (""), none, none, none, none, none⟩, some ("Bona nit"), none, none, none⟩

/-- A page with no embedded object whose h1 strips to a nonempty heading. -/
def goodPage : Page := ⟨none, some (" Bona nit  "), none, none, none⟩

/-- An embedded object supplying every field. -/
def sampleJson : EmbeddedData :=
  ⟨some ("Episodi ple"), some ("descripcio"), some ("2021-07-05"), some ("PT1H"),
   some ("https://img/x.jpg"), some ("https://media/x.mp3")⟩

/-- A page carrying both the full embedded object and all markup fallbacks. -/
def samplePage : Page :=
  ⟨some sampleJson, some ("Altres"), some ("md"), some ("td"), some ("og")⟩

/-- A date parser stub that always fails, for concrete instantiations. -/
def sampleParse : String → Option PyDateTime := fun _ => none

/-- A full episode record with a title and an audio URL. -/
def sampleEpisodeA : EpisodeData :=
  ⟨some ("e1"), some ("https://www.rtve.es/play/audios/de-nit/e1/"), some ("Episodi u"),
   some ("d1"), none, none, none, some ("https://media/e1.mp3")⟩

/-- A sparse episode record with a title and a duration only. -/
def sampleEpisodeB : EpisodeData :=
  ⟨some ("e2"), none, some ("Episodi dos"), none, none, some ("PT1H2M3S"), none, none⟩

/-- A record with every key absent. -/
def emptyEpisodeData : EpisodeData := ⟨none, none, none, none, none, none, none, none⟩

/-- A record whose `audio_url` key is present but holds the empty string. -/
def emptyAudioEpisode : EpisodeData :=
  ⟨some ("ep1"), some ("https://www.rtve.es/play/audios/de-nit/ep1/"), some ("Episodi u"),
   some ("descripcio"), none, none, none, some ("")⟩

/-- A record whose audio URL ends in `.ogg`. -/
def oggEpisode : EpisodeData :=
  ⟨some ("e9"), none, some ("T"), none, none, none, none, some ("https://media/x.ogg")⟩

theorem fmtHMS_zero : fmtHMS 0 0 0 = "00:00:00" := by decide

theorem add_episodes_eq (nowWall : Nat) (dparse : String → Option PyDateTime)
    (entries : List FeedEntry) (episodes : List EpisodeData) :
    add_episodes nowWall dparse entries episodes =
      (episodes.map (add_episode nowWall dparse)).reverse ++ entries := by
  induction episodes generalizing entries with
  | nil => simp [add_episodes]
  | cons e rest ih =>
    simp only [add_episodes, List.foldl_cons, List.map_cons, List.reverse_cons] at ih ⊢
    rw [ih (add_episode nowWall dparse e :: entries)]
    simp

theorem digitChar_isDigit (m : Nat) (h : m < 10) : (Nat.digitChar m).isDigit = true := by
  interval_cases m <;> decide

theorem natToDigitsAux_length_pos (fuel n : Nat) (h : 1 ≤ fuel) :
    1 ≤ (natToDigitsAux fuel n).length := by
  match fuel with
  | 0 => omega
  | f + 1 =>
    simp only [natToDigitsAux]
    by_cases h10 : n < 10
    · simp [h10]
    · simp [h10]

theorem natToDigitsAux_all_digits (fuel : Nat) :
    ∀ n, (natToDigitsAux fuel n).all Char.isDigit = true := by
  induction fuel with
  | zero => intro n; rfl
  | succ f ih =>
    intro n
    simp only [natToDigitsAux]
    by_cases h10 : n < 10
    · simp [h10, digitChar_isDigit n h10]
    · simp [h10, List.all_append, ih (n / 10),
        digitChar_isDigit (n % 10) (Nat.mod_lt n (by omega))]

theorem fmt2_two_le_length (n : Nat) : 2 ≤ (fmt2 n).length := by
  unfold fmt2 natToDecimal
  by_cases h10 : n < 10
  · have h1 := natToDigitsAux_length_pos (n + 1) n (by omega)
    simp only [h10, if_pos, String.length_append]
    have h2 : ("0" : String).length = 1 := by decide
    have h3 : (String.mk (natToDigitsAux (n + 1) n)).length = (natToDigitsAux (n + 1) n).length := rfl
    omega
  · have h1 := natToDigitsAux_length_pos n (n / 10) (by omega)
    simp only [h10, if_neg, not_false_iff]
    have h3 : (String.mk (natToDigitsAux (n + 1) n)).length = (natToDigitsAux (n + 1) n).length := rfl
    rw [h3]
    simp only [natToDigitsAux, h10, if_neg, not_false_iff, List.length_append]
    simp
    omega

theorem fmt2_all_digits (n : Nat) : (fmt2 n).data.all Char.isDigit = true := by
  unfold fmt2 natToDecimal
  by_cases h10 : n < 10
  · simp only [h10, if_pos]
    show (('0' :: natToDigitsAux (n + 1) n).all Char.isDigit) = true
    simp [List.all_cons, natToDigitsAux_all_digits (n + 1) n]
  · simp only [h10, if_neg, not_false_iff]
    exact natToDigitsAux_all_digits (n + 1) n

theorem parse_duration_shape (s : String) :
    ∃ h m sec : Nat, parse_duration s = fmtHMS h m sec := by
  unfold parse_duration
  by_cases he : s = ""
  · exact ⟨0, 0, 0, by simp [he, fmtHMS_zero]⟩
  · simp only [he, if_neg, not_false_iff]
    cases hd : durationComponents s with
    | none => exact ⟨0, 0, 0, fmtHMS_zero.symm⟩
    | some t => exact ⟨t.1, t.2.1, t.2.2, rfl⟩

/-- C3: `_parse_duration` satisfies the reference equations of the spec:
`PT1H2M3S` maps to `01:02:03`, `PT45S` to `00:00:45`, the empty string and
an unparsable string map to `00:00:00`, and absent hour/minute/second
components default to zero.  Totality over strings is inherent: the
embedding is a total function. -/
theorem C3_parse_duration_reference :
    parse_duration ("PT1H2M3S") = "01:02:03" ∧
    parse_duration ("PT45S") = "00:00:45" ∧
    parse_duration ("") = "00:00:00" ∧
    parse_duration ("garbage") = "00:00:00" ∧
    parse_duration ("PT2M") = "00:02:00" ∧
    parse_duration ("PT3H") = "03:00:00" ∧
    parse_duration ("PT7S") = "00:00:07" := by
  decide

/-- C8 counterexample: the claim says every component of the output is
exactly two digits, but the Python `{n:02d}` format only pads to a minimum
width, so `PT100H` yields the three-digit hour component `100`. -/
theorem C8_counterexample :
    parse_duration ("PT100H") = "100:00:00" ∧
    strSplitOn (parse_duration ("PT100H")) ':' = ["100", "00", "00"] ∧
    ("100" : String).length ≠ 2 := by
  decide

/-- C8 amended: for every input string the result is of the form
`hours:minutes:seconds` in which every component is all digits and
zero-padded to AT LEAST two digits (a component of 100 or more is rendered
with all its digits); day or week components are not in the pattern's
component set and inputs carrying them contribute zero. -/
theorem C8_amended_output_shape :
    (∀ s : String, ∃ h m sec : Nat,
      parse_duration s = fmtHMS h m sec ∧
      2 ≤ (fmt2 h).length ∧ 2 ≤ (fmt2 m).length ∧ 2 ≤ (fmt2 sec).length ∧
      (fmt2 h).data.all Char.isDigit = true ∧
      (fmt2 m).data.all Char.isDigit = true ∧
      (fmt2 sec).data.all Char.isDigit = true) ∧
    parse_duration ("PT5D") = "00:00:00" ∧
    parse_duration ("P2DT1H") = "00:00:00" ∧
    parse_duration ("PT3W6S") = "00:00:00" := by
  refine ⟨fun s => ?_, by decide, by decide, by decide⟩
  obtain ⟨h, m, sec, he⟩ := parse_duration_shape s
  exact ⟨h, m, sec, he, fmt2_two_le_length h, fmt2_two_le_length m, fmt2_two_le_length sec,
    fmt2_all_digits h, fmt2_all_digits m, fmt2_all_digits sec⟩

/-- C4: `_parse_date` never fails: the result always carries a timezone; a
parsed result without a timezone keeps its wall-clock values and is tagged
UTC (attached, not converted); an empty or unparsable input yields the
current UTC instant. -/
theorem C4_parse_date_total_and_utc (nowWall : Nat) (dparse : String → Option PyDateTime)
    (s : String) :
    (parse_date nowWall dparse s).tzOffset ≠ none ∧
    (∀ w, s ≠ "" → dparse s = some ⟨w, none⟩ →
      parse_date nowWall dparse s = ⟨w, some 0⟩) ∧
    (s = "" → parse_date nowWall dparse s = ⟨nowWall, some 0⟩) ∧
    (dparse s = none → parse_date nowWall dparse s = ⟨nowWall, some 0⟩) := by
  refine ⟨?_, fun w hne hw => ?_, fun hc => ?_, fun hc => ?_⟩
  · by_cases he : s = ""
    · simp [parse_date, he, utcTz]
    · simp only [parse_date, he, if_neg, not_false_iff, utcTz]
      cases hd : dparse s with
      | none => simp
      | some dt =>
        by_cases ht : dt.tzOffset = none
        · simp [ht]
        · simp [ht]
  · simp [parse_date, hne, hw, utcTz]
  · simp [parse_date, hc, utcTz]
  · by_cases he : s = ""
    · simp [parse_date, he, utcTz]
    · simp [parse_date, he, hc, utcTz]

/-- Witness for C4 at a concrete naive parse result and a concrete empty
input. -/
theorem C4_witness :
    parse_date 7 (fun _ => some ⟨42, none⟩) ("2021-07-05 10:00") = ⟨42, some 0⟩ ∧
    parse_date 7 sampleParse ("") = ⟨7, some 0⟩ := by
  exact ⟨(C4_parse_date_total_and_utc 7 (fun _ => some ⟨42, none⟩) ("2021-07-05 10:00")).2.1
      42 (by decide) rfl,
    (C4_parse_date_total_and_utc 7 sampleParse ("")).2.2.1 rfl⟩

/-- C5 counterexample: feedgen's `add_entry()` inserts each new entry at
the front of the entry list by default, so on the concrete two-record input
the first serialized entry is the rendering of the SECOND record, not the
first — refuting the claim that entries appear in the same relative order
as the input sequence (both records carry titles, and the two renderings
differ). -/
theorem C5_counterexample :
    (add_episodes 0 sampleParse [] [sampleEpisodeA, sampleEpisodeB]).length = 2 ∧
    (add_episodes 0 sampleParse [] [sampleEpisodeA, sampleEpisodeB])[0]? =
      some (add_episode 0 sampleParse sampleEpisodeB) ∧
    (add_episodes 0 sampleParse [] [sampleEpisodeA, sampleEpisodeB])[0]? ≠
      some (add_episode 0 sampleParse sampleEpisodeA) := by
  decide

/-- C5 amended: `add_episodes` starting from an empty feed produces exactly
one entry per input record, but in REVERSE input order (each `add_entry`
prepends): the feed is the reversed rendering of the record sequence, and
entry `i` is the rendering of record `N - 1 - i`. -/
theorem C5_reversed_order (nowWall : Nat) (dparse : String → Option PyDateTime)
    (episodes : List EpisodeData) (htitle : ∀ e ∈ episodes, e.title ≠ none) :
    (add_episodes nowWall dparse [] episodes).length = episodes.length ∧
    add_episodes nowWall dparse [] episodes =
      (episodes.map (add_episode nowWall dparse)).reverse ∧
    ∀ i, i < episodes.length →
      (add_episodes nowWall dparse [] episodes)[i]? =
        (episodes[episodes.length - 1 - i]?).map (add_episode nowWall dparse) := by
  have he := add_episodes_eq nowWall dparse [] episodes
  rw [List.append_nil] at he
  refine ⟨by rw [he]; simp, he, fun i hi => ?_⟩
  rw [he, List.getElem?_reverse (by simpa using hi), List.getElem?_map]
  simp

/-- Witness for C5 on a concrete two-record input with titles: the LAST
entry is the rendering of the FIRST record. -/
theorem C5_witness :
    (add_episodes 0 sampleParse [] [sampleEpisodeA, sampleEpisodeB]).length = 2 ∧
    (add_episodes 0 sampleParse [] [sampleEpisodeA, sampleEpisodeB])[1]? =
      some (add_episode 0 sampleParse sampleEpisodeA) := by
  have h := C5_reversed_order 0 sampleParse [sampleEpisodeA, sampleEpisodeB] (by decide)
  exact ⟨h.1, (h.2.2 1 (by decide)).trans rfl⟩

/-- C6 counterexample: a record whose `audio_url` key is present but holds
the empty string gets NO enclosure (Python truthiness), although the claim
promises an enclosure of type `audio/mpeg` for any present audio URL with a
missing extension. -/
theorem C6_counterexample :
    emptyAudioEpisode.audio_url = some ("") ∧
    (add_episode 0 sampleParse emptyAudioEpisode).enclosure = none := by
  decide

/-- C6 amended: a present NONEMPTY audio URL yields an enclosure with the
extension-driven MIME type (`.m4a` to audio/mp4, `.ogg` to audio/ogg,
anything else to audio/mpeg) and declared length `0`; an absent or empty
audio URL yields an entry with no enclosure and all other fields unchanged. -/
theorem C6_amended_enclosure (nowWall : Nat) (dparse : String → Option PyDateTime)
    (d : EpisodeData) :
    (∀ u, d.audio_url = some u → u ≠ "" →
      (add_episode nowWall dparse d).enclosure = some ⟨u, mimeTypeFor u, "0"⟩ ∧
      (strEndsWith u (".m4a") = true → mimeTypeFor u = "audio/mp4") ∧
      (strEndsWith u (".m4a") = false → strEndsWith u (".ogg") = true →
        mimeTypeFor u = "audio/ogg") ∧
      (strEndsWith u (".m4a") = false → strEndsWith u (".ogg") = false →
        mimeTypeFor u = "audio/mpeg")) ∧
    ((d.audio_url = none ∨ d.audio_url = some "") →
      (add_episode nowWall dparse d).enclosure = none) ∧
    add_episode nowWall dparse { d with audio_url := none } =
      { add_episode nowWall dparse d with enclosure := none } := by
  refine ⟨fun u hu h0 => ⟨?_, fun h1 => ?_, fun h1 h2 => ?_, fun h1 h2 => ?_⟩, fun hcase => ?_, ?_⟩
  · simp [add_episode, hu, h0]
  · simp [mimeTypeFor, h1]
  · simp [mimeTypeFor, h1, h2]
  · simp [mimeTypeFor, h1, h2]
  · rcases hcase with hn | he
    · simp [add_episode, hn]
    · simp [add_episode, he]
  · simp [add_episode]

/-- Witness for C6 on a concrete record with an `.ogg` audio URL. -/
theorem C6_witness :
    (add_episode 0 sampleParse oggEpisode).enclosure =
      some ⟨"https://media/x.ogg", "audio/ogg", "0"⟩ ∧
    mimeTypeFor ("https://media/x.ogg") = "audio/ogg" := by
  have h := (C6_amended_enclosure 0 sampleParse oggEpisode).1 ("https://media/x.ogg")
    rfl (by decide)
  have hm : mimeTypeFor ("https://media/x.ogg") = "audio/ogg" := by decide
  exact ⟨by rw [h.1, hm], hm⟩

/-- C10: the synthesizer enforces no required-title invariant: every record
yields exactly one entry, with the default title `Sin título` when the
title key is missing, the empty description when the description key is
missing, and the guid `de-nit-` ++ id (id possibly empty) when the episode
URL is missing. -/
theorem C10_synthesizer_defaults (nowWall : Nat) (dparse : String → Option PyDateTime)
    (d : EpisodeData) :
    (add_episodes nowWall dparse [] [d]).length = 1 ∧
    (d.title = none → (add_episode nowWall dparse d).title = "Sin título") ∧
    (d.description = none → (add_episode nowWall dparse d).description = "") ∧
    (d.url = none → (add_episode nowWall dparse d).guid = "de-nit-" ++ d.id.getD "") := by
  refine ⟨by simp [add_episodes], fun h => ?_, fun h => ?_, fun h => ?_⟩
  · simp [add_episode, h]
  · simp [add_episode, h]
  · simp [add_episode, h]

/-- Witness for C10 on the record with every key absent. -/
theorem C10_witness :
    (add_episode 0 sampleParse emptyEpisodeData).title = "Sin título" ∧
    (add_episode 0 sampleParse emptyEpisodeData).description = "" ∧
    (add_episode 0 sampleParse emptyEpisodeData).guid = "de-nit-" := by
  have h := C10_synthesizer_defaults 0 sampleParse emptyEpisodeData
  exact ⟨h.2.1 rfl, h.2.2.1 rfl, (h.2.2.2 rfl).trans (by decide)⟩

/-- C9: a missing input file aborts with the file-not-found diagnostic, an
unparsable input aborts with the invalid-content diagnostic, the two
diagnostics differ for every input path, and no feed output is produced in
either case (only the `generated` outcome writes output). -/
theorem C9_input_errors (path : String) (jsonLoad : String → Option (List EpisodeData))
    (nowWall : Nat) (dparse : String → Option PyDateTime) :
    run_generator_main path none jsonLoad nowWall dparse =
      .fileNotFound (fileNotFoundMsg path) ∧
    (∀ content, jsonLoad content = none →
      run_generator_main path (some content) jsonLoad nowWall dparse =
        .invalidContent (invalidJsonMsg path)) ∧
    fileNotFoundMsg path ≠ invalidJsonMsg path ∧
    (∀ feed, run_generator_main path none jsonLoad nowWall dparse ≠ .generated feed) ∧
    (∀ content feed, jsonLoad content = none →
      run_generator_main path (some content) jsonLoad nowWall dparse ≠ .generated feed) := by
  refine ⟨rfl, fun content hc => ?_, fun hcontra => ?_, fun feed => ?_, fun content feed hc => ?_⟩
  · simp [run_generator_main, hc]
  · have hlen := congrArg String.length hcontra
    simp only [fileNotFoundMsg, invalidJsonMsg, String.length_append] at hlen
    have e1 : ("Error: No se encontró el archivo " : String).length = 33 := by decide
    have e2 : (". Ejecuta primero el scraper para generar los datos de episodios." : String).length
      = 65 := by decide
    have e3 : ("Error: El archivo " : String).length = 18 := by decide
    have e4 : (" no contiene JSON válido. Verifica que el archivo fue generado correctamente por el scraper." : String).length
      = 92 := by decide
    rw [e1, e2, e3, e4] at hlen
    omega
  · simp [run_generator_main]
  · simp [run_generator_main, hc]

/-- Witness for C9 at the default input path with a failing load. -/
theorem C9_witness :
    run_generator_main ("episodes.json") none (fun _ => none) 0 sampleParse =
      .fileNotFound (fileNotFoundMsg ("episodes.json")) ∧
    run_generator_main ("episodes.json") (some ("not json")) (fun _ => none) 0 sampleParse =
      .invalidContent (invalidJsonMsg ("episodes.json")) ∧
    fileNotFoundMsg ("episodes.json") ≠ invalidJsonMsg ("episodes.json") := by
  have h := C9_input_errors ("episodes.json") (fun _ => none) 0 sampleParse
  exact ⟨h.1, h.2.1 ("not json") rfl, h.2.2.1⟩

/-- C1: every field is resolved independently through the fixed source
priority.  When the embedded object supplies a field, that value wins; when
the embedded object is absent or lacks the field, the markup fallback is
used (h1 for title, meta description, time datetime, og:image); duration
has no markup fallback; and the remote API is consulted only for the audio
URL, only when the embedded object lacks a direct `contentUrl` (a supplied
`contentUrl` makes the result independent of the API response, which is
universally quantified here). -/
theorem C1_source_priority (p : Page) (j : EmbeddedData) (api : Option (List ApiItem)) :
    (p.jsonLd = some j →
      (∀ t, j.name = some t → resolveTitle p = some t) ∧
      (j.name = none → resolveTitle p = p.h1Text.map pyStrip) ∧
      (∀ d, j.description = some d → resolveDescription p = some d) ∧
      (j.description = none → resolveDescription p = p.metaDescription.map pyStrip) ∧
      (∀ d, j.uploadDate = some d → resolvePubDate p = some d) ∧
      (j.uploadDate = none → resolvePubDate p = p.timeDatetime) ∧
      resolveDuration p = j.duration ∧
      (∀ i, j.thumbnailUrl = some i → resolveImage p = some i) ∧
      (j.thumbnailUrl = none → resolveImage p = p.ogImage) ∧
      (∀ u, j.contentUrl = some u → extract_audio_url p api = some u) ∧
      (j.contentUrl = none → extract_audio_url p api = apiAudio api)) ∧
    (p.jsonLd = none →
      resolveTitle p = p.h1Text.map pyStrip ∧
      resolveDescription p = p.metaDescription.map pyStrip ∧
      resolvePubDate p = p.timeDatetime ∧
      resolveDuration p = none ∧
      resolveImage p = p.ogImage ∧
      extract_audio_url p api = apiAudio api) := by
  constructor
  · intro hj
    refine ⟨fun t ht => ?_, fun hn => ?_, fun d hd => ?_, fun hd => ?_, fun d hd => ?_,
      fun hd => ?_, ?_, fun i hi => ?_, fun hi => ?_, fun u hu => ?_, fun hu => ?_⟩ <;>
      simp_all [resolveTitle, resolveDescription, resolvePubDate, resolveDuration,
        resolveImage, extract_audio_url]
  · intro hj
    refine ⟨?_, ?_, ?_, ?_, ?_, ?_⟩ <;>
      simp_all [resolveTitle, resolveDescription, resolvePubDate, resolveDuration,
        resolveImage, extract_audio_url]

/-- Witness for C1 on a page supplying every embedded field, alongside all
markup fallbacks: the embedded values win and the API is not consulted. -/
theorem C1_witness :
    resolveTitle samplePage = some "Episodi ple" ∧
    resolveDuration samplePage = some "PT1H" ∧
    extract_audio_url samplePage none = some "https://media/x.mp3" := by
  have h := (C1_source_priority samplePage sampleJson none).1 rfl
  exact ⟨h.1 ("Episodi ple") rfl, h.2.2.2.2.2.2.1,
    h.2.2.2.2.2.2.2.2.2.1 ("https://media/x.mp3") rfl⟩

/-- C2 counterexample: on a page whose embedded object supplies the empty
string as `name` while the markup h1 carries a real heading, the episode is
dropped although a title is resolvable from a source — refuting the claim
that an absent result occurs exactly when the title cannot be resolved from
any source. -/
theorem C2_counterexample :
    get_episode_details cexPageC2 none ("https://www.rtve.es/play/audios/de-nit/ep1/") = none ∧
    titleResolvableFromSomeSource cexPageC2 := by
  exact ⟨by decide, Or.inr ⟨"Bona nit", by decide, by decide⟩⟩

/-- C2 amended: extraction returns an absent result exactly when the title
resolved through the priority chain is absent OR the empty string (Python
falsiness); when a nonempty title is resolved, a record is produced even if
every other field is absent, carrying exactly the resolved fields. -/
theorem C2_amended_title_gate (p : Page) (api : Option (List ApiItem)) (u : String) :
    (get_episode_details p api u = none ↔
      (resolveTitle p = none ∨ resolveTitle p = some "")) ∧
    (∀ t, resolveTitle p = some t → t ≠ "" →
      get_episode_details p api u =
        some ⟨episodeIdOf u, u, t, (resolveDescription p).getD "", resolvePubDate p,
              resolveDuration p, resolveImage p, extract_audio_url p api⟩) := by
  constructor
  · unfold get_episode_details
    cases ht : resolveTitle p with
    | none => simp
    | some t =>
      by_cases h0 : t = "" <;> simp [h0]
  · intro t ht h0
    unfold get_episode_details
    rw [ht]
    simp [h0]

/-- Witness for C2 on a page whose only title source is a whitespace-padded
h1 heading: the record is produced with all other fields absent. -/
theorem C2_witness :
    get_episode_details goodPage none ("https://www.rtve.es/play/audios/de-nit/ep2/") =
      some ⟨"ep2", "https://www.rtve.es/play/audios/de-nit/ep2/", "Bona nit", "",
            none, none, none, none⟩ := by
  have h := (C2_amended_title_gate goodPage none
    ("https://www.rtve.es/play/audios/de-nit/ep2/")).2 ("Bona nit") (by decide) (by decide)
  exact h.trans (by decide)

theorem episodeLinks_foldl_spec (hrefs : List String) :
    ∀ acc : List String, acc.Nodup →
      (hrefs.foldl episodeLinkStep acc).Nodup ∧
      ∃ r, hrefs.foldl episodeLinkStep acc = acc ++ r ∧
        List.Sublist r (hrefs.filterMap linkFilterMapFn) := by
  induction hrefs with
  | nil =>
    intro acc hacc
    exact ⟨hacc, [], by simp, List.Sublist.refl _⟩
  | cons href rest ih =>
    intro acc hacc
    rw [List.foldl_cons]
    by_cases hc : (strContains href ("/play/audios/de-nit/") && href != PROGRAM_URL) = true
    · by_cases hmem : urljoin BASE_URL href ∈ acc
      · have hstep : episodeLinkStep acc href = acc := by
          simp [episodeLinkStep, hc, hmem]
        rw [hstep]
        obtain ⟨hnd, r, heq, hsub⟩ := ih acc hacc
        refine ⟨hnd, r, heq, ?_⟩
        rw [List.filterMap_cons, show linkFilterMapFn href = some (urljoin BASE_URL href)
          from by simp [linkFilterMapFn, hc]]
        exact List.Sublist.cons _ hsub
      · have hstep : episodeLinkStep acc href = acc ++ [urljoin BASE_URL href] := by
          simp [episodeLinkStep, hc, hmem]
        rw [hstep]
        have hacc2 : (acc ++ [urljoin BASE_URL href]).Nodup := by
          simp [List.nodup_append, hacc, hmem]
        obtain ⟨hnd, r, heq, hsub⟩ := ih (acc ++ [urljoin BASE_URL href]) hacc2
        refine ⟨hnd, urljoin BASE_URL href :: r, ?_, ?_⟩
        · rw [heq, List.append_assoc]
          rfl
        · rw [List.filterMap_cons, show linkFilterMapFn href = some (urljoin BASE_URL href)
            from by simp [linkFilterMapFn, hc]]
          exact List.Sublist.cons₂ _ hsub
    · have hstep : episodeLinkStep acc href = acc := by
        simp only [episodeLinkStep]
        rw [if_neg hc]
      rw [hstep, List.filterMap_cons, show linkFilterMapFn href = none
        from by simp only [linkFilterMapFn]; rw [if_neg hc]]
      exact ih acc hacc

theorem episodeLinks_filter_raw (hrefs : List String) :
    ∀ acc, (hrefs.filter (fun h => h != PROGRAM_URL)).foldl episodeLinkStep acc =
      hrefs.foldl episodeLinkStep acc := by
  induction hrefs with
  | nil => intro acc; rfl
  | cons href rest ih =>
    intro acc
    by_cases hp : href = PROGRAM_URL
    · subst hp
      have hstep : episodeLinkStep acc PROGRAM_URL = acc := by
        simp [episodeLinkStep]
      simp only [List.filter_cons, bne_self_eq_false, List.foldl_cons, hstep]
      exact ih acc
    · have hbp : (href != PROGRAM_URL) = true := by simp [hp]
      simp only [List.filter_cons, hbp, List.foldl_cons]
      exact ih (episodeLinkStep acc href)

/-- C7 counterexample: the exclusion of the listing page compares the RAW
href before joining, so a root-relative href that resolves to the listing
URL is not excluded and the listing page itself appears in the result —
refuting the claim that the returned sequence excludes the listing page. -/
theorem C7_counterexample :
    ("/play/audios/de-nit/" : String) ≠ PROGRAM_URL ∧
    get_episodes_list_urls ["/play/audios/de-nit/"] 50 = [PROGRAM_URL] ∧
    PROGRAM_URL ∈ get_episodes_list_urls ["/play/audios/de-nit/"] 50 := by
  decide

/-- C7 amended: discovery returns each distinct URL at most once
(deduplicated by exact equality of the joined URL, first occurrences kept in
order — the result is a subsequence of the stream of matched joined links),
truncated to the configured maximum; hyperlinks whose raw href is textually
equal to the listing URL are excluded, but the listing page itself can still
appear through a relative href that resolves to it. -/
theorem C7_amended_discovery (hrefs : List String) (max_episodes : Nat) :
    (get_episodes_list_urls hrefs max_episodes).Nodup ∧
    (get_episodes_list_urls hrefs max_episodes).length ≤ max_episodes ∧
    List.Sublist (get_episodes_list_urls hrefs max_episodes)
      (hrefs.filterMap linkFilterMapFn) ∧
    get_episodes_list_urls (hrefs.filter (fun h => h != PROGRAM_URL)) max_episodes =
      get_episodes_list_urls hrefs max_episodes := by
  obtain ⟨hnd, r, heq, hsub⟩ := episodeLinks_foldl_spec hrefs [] List.nodup_nil
  have hlinks : episodeLinks hrefs = r := by
    rw [episodeLinks, heq]
    rfl
  refine ⟨?_, ?_, ?_, ?_⟩
  · exact hnd.sublist (by rw [get_episodes_list_urls]; exact List.take_sublist _ _)
  · rw [get_episodes_list_urls]
    exact List.length_take_le _ _
  · refine List.Sublist.trans ?_ (hlinks ▸ hsub)
    rw [get_episodes_list_urls]
    exact List.take_sublist _ _
  · rw [get_episodes_list_urls, get_episodes_list_urls, episodeLinks, episodeLinks,
      episodeLinks_filter_raw hrefs []]

end RssLaNit
